import Mathlib

/-!
Shallow embedding of the `dirlock` Python package (`src/dirlock/__init__.py`):
a directory-based lock.  A `DirLock` handle acquires a lock by creating the
directory `lock_dir` (atomic on the filesystem), polling with `retry_interval`
until creation succeeds or `timeout_interval` (negative = wait forever) is
exceeded, and releases it by removing the directory.  A module-global set
`_allActiveLocks` registers the handles currently acquired by the process, and
`_clean_locks` plus the SIGINT/SIGTERM handlers drain it on termination.

Two views are embedded:
* a single-process state model (`PState`) in which directory creation and
  removal are atomic operations, used for the registry/release/cleanup and
  mutual-exclusion properties; and
* the acquire polling loop in isolation (`acquireLoop` / `acquireRun`),
  parametrised by the externally observed directory occupancy and wall clock
  at each iteration, used for the timeout properties.

Python exceptions are modelled as explicit `PyErr` results; a Python
`set.remove` on a missing element raises `KeyError`, which the embedding keeps
(`setRemove`).  Durations are rationals (seconds).
-/

namespace Dirlock

/-- Caller-visible Python exceptions of the modelled code paths:
`KeyError` (from `set.remove`), `LockTimeoutException`, and any `OSError`
other than `FileNotFoundError` raised by `os.rmdir` (e.g. `PermissionError`,
`OSError: directory not empty`). -/
inductive PyErr
  | keyError
  | lockTimeoutError
  | osError
deriving DecidableEq, Repr

/-- Outcome of `os.rmdir(p)`: the directory is removed, or the call raises
`FileNotFoundError` (path absent), or some other `OSError` (modelled by the
`stuck` set of paths whose removal fails for a reason other than absence). -/
inductive RmdirRes
  | success
  | notFound
  | otherError
deriving DecidableEq, Repr

/-- Process state for `n` `DirLock` handles created on this process:
per-handle `lock_dir` strings and `acquired` flags, the module-global registry
`_allActiveLocks` (as the set of handle indices it contains), and the shared
filesystem: `dirs` is the set of existing lock directories and `stuck` the set
of paths whose `os.rmdir` fails with an error other than `FileNotFoundError`. -/
structure PState (n : Nat) where
  lockDir : Fin n → String
  acquired : Fin n → Bool
  registry : Finset (Fin n)
  dirs : Finset String
  stuck : Finset String

/-- `os.rmdir` on path `p` in filesystem `(dirs, stuck)`. -/
def rmdirRes (st : PState n) (p : String) : RmdirRes :=
  if p ∉ st.dirs then .notFound
  else if p ∈ st.stuck then .otherError
  else .success

/-- Python `set.remove`: removes the element, raising `KeyError` if absent. -/
def setRemove {α : Type} [DecidableEq α] (s : Finset α) (a : α) :
    Except PyErr (Finset α) :=
  if a ∈ s then .ok (s.erase a) else .error .keyError

/-- `DirLock.release` on handle `i` (lines 131-141).  Returns the state after
the call together with the exception it propagates, if any.  Mutations made
before an uncaught exception persist, as in Python:

    if self.acquired:
        try:
            os.rmdir(self.lock_dir)
            _allActiveLocks.remove(self)
        except FileNotFoundError:
            pass
        self.acquired = False
-/
def release (st : PState n) (i : Fin n) : PState n × Option PyErr :=
  if st.acquired i then
    match rmdirRes st (st.lockDir i) with
    | .success =>
      match setRemove st.registry i with
      | .ok reg =>
        ({ st with dirs := st.dirs.erase (st.lockDir i), registry := reg,
                   acquired := Function.update st.acquired i false }, none)
      | .error e =>
        -- the directory is gone, but `KeyError` is not a
        -- `FileNotFoundError`: it propagates and `self.acquired = False`
        -- is never reached.
        ({ st with dirs := st.dirs.erase (st.lockDir i) }, some e)
    | .notFound =>
      -- caught by `except FileNotFoundError: pass`; note the registry
      -- removal inside the `try` block is skipped.
      ({ st with acquired := Function.update st.acquired i false }, none)
    | .otherError =>
      -- not caught: propagates before any field is changed.
      (st, some .osError)
  else (st, none)

/-- The successful branch of `DirLock.acquire` (lines 115-120) as one atomic
step: `os.mkdir` succeeds (the directory did not exist), the handle is marked
acquired and added to the registry.  Usable exactly when
`st.lockDir i ∉ st.dirs`; a blocked acquire changes no state. -/
def acquireStep (st : PState n) (i : Fin n) : PState n :=
  { st with dirs := insert (st.lockDir i) st.dirs,
            acquired := Function.update st.acquired i true,
            registry := insert i st.registry }

/-- The loop body sequence of `_clean_locks` (lines 29-35) over the snapshot
list `locks`:

    for dl in locks_to_release:
        dl.release()
        _allActiveLocks.remove(dl)

An exception from either `dl.release()` or the `set.remove` aborts the loop
and propagates. -/
def cleanLoop (st : PState n) : List (Fin n) → PState n × Option PyErr
  | [] => (st, none)
  | dl :: rest =>
    match release st dl with
    | (st1, some e) => (st1, some e)
    | (st1, none) =>
      match setRemove st1.registry dl with
      | .ok reg => cleanLoop { st1 with registry := reg } rest
      | .error e => (st1, some e)

/-- `_clean_locks`: iterate over `list(_allActiveLocks)`, a snapshot of the
registry.  `order` is the (arbitrary) enumeration order of the set; it is
faithful when it lists the registry exactly once (`CleanOrder`). -/
def cleanLocks (st : PState n) (order : List (Fin n)) : PState n × Option PyErr :=
  cleanLoop st order

/-- `order` is a valid result of `list(_allActiveLocks)` in state `st`. -/
def CleanOrder (st : PState n) (order : List (Fin n)) : Prop :=
  order.Nodup ∧ ∀ i, i ∈ order ↔ i ∈ st.registry

/-! ### The acquire polling loop

`DirLock.acquire` (lines 108-129) in isolation.  The loop is parametrised by
what it observes at iteration `k`: `busy k` is whether `os.mkdir(lock_dir)`
fails with `FileExistsError` at the `k`-th attempt, and `elapsed k` is
`(datetime.now() - start_time).total_seconds()` at the `k`-th timeout check.
`fuel` bounds how many iterations are unfolded; running out of fuel means the
loop is still polling. -/

/-- How a run of the acquire loop ends within `fuel` iterations. -/
inductive AcqOutcome
  | success (k : Nat)
  | lockTimeout (k : Nat)
  | polling
deriving DecidableEq, Repr

/-- The `while True` loop of `DirLock.acquire`, starting at iteration `k`:

    while True:
        try:
            os.mkdir(self.lock_dir); ...; break
        except FileExistsError:
            pass
        if self.timeout_interval >= 0.0:
            if (datetime.now() - start_time).total_seconds() > self.timeout_interval:
                raise LockTimeoutException()
        time.sleep(self.retry_interval)
-/
def acquireLoop (tmo : ℚ) (busy : Nat → Bool) (elapsed : Nat → ℚ) :
    Nat → Nat → AcqOutcome
  | 0, _ => .polling
  | fuel + 1, k =>
    if busy k = false then .success k
    else if 0 ≤ tmo ∧ tmo < elapsed k then .lockTimeout k
    else acquireLoop tmo busy elapsed fuel (k + 1)

/-- A `DirLock` handle as constructed by `DirLock.__init__` (lines 87-106). -/
structure DirLock where
  lock_dir : String
  retry_interval : ℚ
  timeout_interval : ℚ
  acquired : Bool
deriving DecidableEq, Repr

/-- `DirLock.default_retry_interval = 0.1`. -/
def default_retry_interval : ℚ := 1 / 10

/-- `DirLock.__init__(lock_dir, retry_interval=None, timeout_interval=-1)`:
`retry_interval=None` selects the class default; `acquired` starts `False`. -/
def mkDirLock (lock_dir : String) (retry_interval : Option ℚ := none)
    (timeout_interval : ℚ := -1) : DirLock :=
  { lock_dir := lock_dir
    retry_interval := retry_interval.getD default_retry_interval
    timeout_interval := timeout_interval
    acquired := false }

/-- A full `acquire()` call on handle `h` (registered in `_allActiveLocks` as
element `id`, the registry modelled as `reg : Finset Nat`): run the loop from
iteration 0; only the success branch mutates state (`self.acquired = True`;
`_allActiveLocks.add(self)`), a timeout raises before any mutation. -/
def acquireRun (h : DirLock) (id : Nat) (reg : Finset Nat) (busy : Nat → Bool)
    (elapsed : Nat → ℚ) (fuel : Nat) : (DirLock × Finset Nat) × AcqOutcome :=
  match acquireLoop h.timeout_interval busy elapsed fuel 0 with
  | .success k => (({ h with acquired := true }, insert id reg), .success k)
  | .lockTimeout k => ((h, reg), .lockTimeout k)
  | .polling => ((h, reg), .polling)

/-! ### Context management and signal handlers -/

/-- Result of executing `with lock: body` (lines 143-154). -/
inductive WithResult (n : Nat)
  | blocked
  | timedOut (st : PState n)
  | completed (st : PState n) (err : Option PyErr)

/-- `with`-statement on handle `i` in the single-process model.  `__enter__`
calls `self.acquire()`: if `lock_dir` already exists nothing in this process
removes it during the loop, so the call blocks forever (negative timeout) or
raises `LockTimeoutException` (the body and `__exit__` never run).  Otherwise
acquisition succeeds at once, the body runs (arbitrary state change, possibly
raising), and `__exit__` calls `self.release()`; `__exit__` returns `None`, so
a body exception is not suppressed, while a `release` exception replaces it. -/
def withLock (tmo : ℚ) (st : PState n) (i : Fin n)
    (body : PState n → PState n × Option PyErr) : WithResult n :=
  if st.lockDir i ∈ st.dirs then
    if 0 ≤ tmo then .timedOut st else .blocked
  else
    match body (acquireStep st i) with
    | (st2, eBody) =>
      match release st2 i with
      | (st3, some e) => .completed st3 (some e)
      | (st3, none) => .completed st3 eBody

/-- The two termination signals handled by the module. -/
inductive Signal
  | sigint
  | sigterm
deriving DecidableEq, Repr

/-- What `signal.getsignal` may have returned before installation: Python's
`None` (handler not installed from Python), or some handler value
(`SIG_DFL`, `SIG_IGN`, or a prior user callable), identified abstractly. -/
inductive PyHandler
  | sigDfl
  | sigIgn
  | user (id : Nat)
deriving DecidableEq, Repr

/-- Observable actions a signal handler performs besides mutating the lock
state: `signal.signal(sig, h)` and `os.kill(os.getpid(), sig)`. -/
inductive SigAction
  | restore (sig : Signal) (h : PyHandler)
  | redeliver (sig : Signal)
deriving DecidableEq, Repr

/-- `handle_sigint_cleanup` / `handle_sigterm_cleanup` (lines 38-65), which
differ only in the signal and captured original handler:

    _clean_locks()
    if original_handler is not None:
        signal.signal(sig, original_handler)
        os.kill(os.getpid(), sig)

Returns the state after the call, the exception it propagates (an exception
from `_clean_locks` aborts the handler), and the list of `SigAction`s
performed, in order. -/
def handleSignalCleanup (sig : Signal) (orig : Option PyHandler) (st : PState n)
    (order : List (Fin n)) : PState n × Option PyErr × List SigAction :=
  match cleanLocks st order with
  | (st1, some e) => (st1, some e, [])
  | (st1, none) =>
    match orig with
    | some h => (st1, none, [.restore sig h, .redeliver sig])
    | none => (st1, none, [])

/-! ### Concrete states used by witnesses and counterexamples -/

/-- Two handles on distinct paths, both acquired and registered, both
directories present: the ordinary situation `_clean_locks` is meant for. -/
def stCleanTwo : PState 2 :=
  { lockDir := fun i => if i = 0 then "a" else "b"
    acquired := fun _ => true
    registry := {0, 1}
    dirs := {"a", "b"}
    stuck := ∅ }

/-- One acquired, registered handle whose lock directory has been removed
out-of-band (the directory is absent from the filesystem). -/
def stGoneDir : PState 1 :=
  { lockDir := fun _ => "a"
    acquired := fun _ => true
    registry := {0}
    dirs := ∅
    stuck := ∅ }

/-- Like `stGoneDir` on a different path (for the release counterexample). -/
def stGoneDirC : PState 1 :=
  { lockDir := fun _ => "c"
    acquired := fun _ => true
    registry := {0}
    dirs := ∅
    stuck := ∅ }

/-- A process with one handle, nothing acquired, empty registry, and the
handle's directory absent. -/
def stIdle : PState 1 :=
  { lockDir := fun _ => "a"
    acquired := fun _ => false
    registry := ∅
    dirs := ∅
    stuck := ∅ }

/-- One acquired, registered handle whose directory removal fails with an
error other than `FileNotFoundError` (e.g. `PermissionError`, non-empty). -/
def stStuck : PState 1 :=
  { lockDir := fun _ => "a"
    acquired := fun _ => true
    registry := {0}
    dirs := {"a"}
    stuck := {"a"} }

/-- Two fresh handles on the same path, nothing acquired. -/
def stTwoSame : PState 2 :=
  { lockDir := fun _ => "a"
    acquired := fun _ => false
    registry := ∅
    dirs := ∅
    stuck := ∅ }

/-- Environment in which `os.mkdir` fails with `FileExistsError` at every
polling iteration (the path is held by another process throughout). -/
def busyAll : Nat → Bool := fun _ => true

/-- Wall clock reading `k` seconds at the `k`-th timeout check. -/
def clockTick : Nat → ℚ := fun k => k

/-- A protected body that raises (body state unchanged, exception escapes). -/
def bodyRaise : PState 1 → PState 1 × Option PyErr :=
  fun s => (s, some PyErr.osError)

/-- Registry inclusion invariant: every handle of this process with
`acquired == True` is a member of `_allActiveLocks`. -/
abbrev RegInv (st : PState n) : Prop :=
  ∀ j, st.acquired j = true → j ∈ st.registry

/-- One atomic step of the single-process model: a successful acquire (the
directory did not exist, creation is atomic) or any completed `release()`
call (the post-state is kept whether or not the call raised). -/
inductive Step : PState n → PState n → Prop
  | acq (st : PState n) (i : Fin n) (hfree : st.lockDir i ∉ st.dirs) :
      Step st (acquireStep st i)
  | rel (st : PState n) (i : Fin n) : Step st (release st i).1

/-- States reachable from `st0` by any interleaving of acquire and release
steps. -/
inductive Reach (st0 : PState n) : PState n → Prop
  | refl : Reach st0 st0
  | tail {st st' : PState n} : Reach st0 st → Step st st' → Reach st0 st'

/-- Inductive invariant giving mutual exclusion: acquired handles are
registered, their directories exist, and no two acquired handles share a
path. -/
def MutexInv (st : PState n) : Prop :=
  (∀ i, st.acquired i = true → i ∈ st.registry) ∧
  (∀ i, st.acquired i = true → st.lockDir i ∈ st.dirs) ∧
  (∀ i j, st.acquired i = true → st.acquired j = true →
    st.lockDir i = st.lockDir j → i = j)


/-! ## Helper lemmas -/

/-- `release` on a handle with `acquired == False` changes nothing and raises
nothing. -/
theorem release_not_acquired (st : PState n) (i : Fin n)
    (h : st.acquired i = false) : release st i = (st, none) := by
  simp [release, h]

/-- A `release` call that returns without an exception leaves the handle with
`acquired == False`. -/
theorem release_none_acquired_false {st st1 : PState n} {i : Fin n}
    (h : release st i = (st1, none)) : st1.acquired i = false := by
  unfold release at h
  split at h
  case isTrue ha =>
    split at h
    · split at h
      case h_1 reg hreg =>
        cases h
        simp [Function.update]
      case h_2 e he => simp at h
    · cases h
      simp [Function.update]
    · simp at h
  case isFalse ha =>
    cases h
    simpa using ha

/-- Release in the `otherError` branch: nothing changes, the error escapes. -/
theorem release_stuck_eq {st : PState n} {i : Fin n} (ha : st.acquired i = true)
    (hd : st.lockDir i ∈ st.dirs) (hs : st.lockDir i ∈ st.stuck) :
    release st i = (st, some PyErr.osError) := by
  simp [release, ha, rmdirRes, hd, hs]

/-- Release in the `FileNotFoundError` branch: only `acquired` is cleared —
the registry entry stays. -/
theorem release_notFound_eq {st : PState n} {i : Fin n}
    (ha : st.acquired i = true) (hd : st.lockDir i ∉ st.dirs) :
    release st i =
      ({ st with acquired := Function.update st.acquired i false }, none) := by
  simp [release, ha, rmdirRes, hd]

/-- Release in the ordinary branch: directory removed, handle deregistered,
`acquired` cleared, no exception. -/
theorem release_success_eq {st : PState n} {i : Fin n}
    (ha : st.acquired i = true) (hd : st.lockDir i ∈ st.dirs)
    (hs : st.lockDir i ∉ st.stuck) (hm : i ∈ st.registry) :
    release st i =
      ({ st with dirs := st.dirs.erase (st.lockDir i),
                 registry := st.registry.erase i,
                 acquired := Function.update st.acquired i false }, none) := by
  simp [release, ha, rmdirRes, hd, hs, setRemove, hm]

/-! ## C1 -/

/-- C1: refuted as stated — the code is buggy.  In the ordinary state
`stCleanTwo` (two acquired, registered handles, both lock directories
present), `_clean_locks` raises `KeyError` instead of terminating normally:
for the first handle, `dl.release()` already removes it from
`_allActiveLocks`, so the loop body's own `_allActiveLocks.remove(dl)` fails.
The registry is left non-empty (`{1}`) and handle 1 still has
`acquired == True`, contradicting the claim (and the repository's own tests
`test_clean_locks_function` and `test_multiple_locks_cleanup`). -/
theorem c1_clean_locks_keyerror :
    CleanOrder stCleanTwo [0, 1] ∧
    (cleanLocks stCleanTwo [0, 1]).2 = some PyErr.keyError ∧
    (cleanLocks stCleanTwo [0, 1]).1.registry = {1} ∧
    (cleanLocks stCleanTwo [0, 1]).1.acquired 1 = true := by
  refine ⟨⟨by decide, by decide⟩, by decide, by decide, by decide⟩

/-! ## C2 -/

/-- C2 counterexample: a `release()` on an acquired, registered handle whose
directory is already absent completes without error, yet afterwards the
registry does NOT contain exactly the handles with `acquired == true`: the
handle stays registered with `acquired == false`. -/
theorem c2_registry_exact_cex :
    (release stGoneDir 0).2 = none ∧
    ¬ (∀ j : Fin 1, j ∈ (release stGoneDir 0).1.registry ↔
        (release stGoneDir 0).1.acquired j = true) := by
  refine ⟨by decide, by decide⟩

/-- C2 (amended): after each completed acquire or release operation the
registry still contains every handle with `acquired == true` (a handle is
added on successful acquire, and release deregisters only when the directory
removal succeeds), and under this inclusion invariant release never raises
`KeyError`; exact coincidence of registry membership with `acquired == true`
fails (see the counterexample). -/
theorem c2_registry_inclusion (st : PState n) (i : Fin n) (h : RegInv st) :
    RegInv (acquireStep st i) ∧ RegInv (release st i).1 ∧
    (release st i).2 ≠ some PyErr.keyError := by
  refine ⟨?_, ?_, ?_⟩
  · intro j hj
    by_cases hji : j = i
    · subst hji; simp [acquireStep]
    · simp only [acquireStep, Function.update, dif_neg hji] at hj
      simp only [acquireStep, Finset.mem_insert]
      exact Or.inr (h j (by simpa [Function.update, hji] using hj))
  · by_cases ha : st.acquired i
    · unfold release
      rw [if_pos ha]
      rcases hr : rmdirRes st (st.lockDir i) with _ | _ | _
      · have hmem : i ∈ st.registry := h i ha
        simp only [setRemove, if_pos hmem]
        intro j hj
        simp only [Function.update] at hj
        rcases eq_or_ne j i with rfl | hji
        · simp at hj
        · simp only [dif_neg hji] at hj
          exact Finset.mem_erase.mpr ⟨hji, h j hj⟩
      · intro j hj
        simp only [Function.update] at hj
        rcases eq_or_ne j i with rfl | hji
        · simp at hj
        · simp only [dif_neg hji] at hj
          exact h j hj
      · exact h
    · rw [release_not_acquired st i (by simpa using ha)]
      exact h
  · by_cases ha : st.acquired i
    · unfold release
      rw [if_pos ha]
      rcases hr : rmdirRes st (st.lockDir i) with _ | _ | _
      · have hmem : i ∈ st.registry := h i ha
        simp [setRemove, hmem]
      · simp
      · simp
    · rw [release_not_acquired st i (by simpa using ha)]
      simp

/-- C2 witness: the amended invariant applied in the concrete two-lock
state. -/
theorem c2_witness :
    RegInv stCleanTwo ∧
    (RegInv (acquireStep stCleanTwo 0) ∧ RegInv (release stCleanTwo 0).1 ∧
      (release stCleanTwo 0).2 ≠ some PyErr.keyError) :=
  ⟨by decide, c2_registry_inclusion stCleanTwo 0 (by decide)⟩

/-! ## C3 -/

/-- C3 counterexample: releasing an acquired handle whose directory was
removed out-of-band raises no error and clears `acquired`, but the handle is
NOT removed from the registry (the `set.remove` inside the `try` block is
skipped when `os.rmdir` raises `FileNotFoundError`), contradicting the
claim's "removes the handle from the registry". -/
theorem c3_release_missing_dir_cex :
    (release stGoneDirC 0).2 = none ∧
    (release stGoneDirC 0).1.acquired 0 = false ∧
    (0 : Fin 1) ∈ (release stGoneDirC 0).1.registry := by
  refine ⟨by decide, by decide, by decide⟩

/-- C3 (amended): for every acquired handle whose lock directory is already
absent, `release()` treats this as success in that it raises no error and
sets `acquired = false`, but it leaves the handle in the registry (the
registry, directories and `stuck` set are unchanged). -/
theorem c3_release_missing_dir (st : PState n) (i : Fin n)
    (ha : st.acquired i = true) (hd : st.lockDir i ∉ st.dirs) :
    release st i =
      ({ st with acquired := Function.update st.acquired i false }, none) :=
  release_notFound_eq ha hd

/-- C3 witness: the amended behaviour at the concrete out-of-band state. -/
theorem c3_witness :
    stGoneDir.acquired 0 = true ∧ stGoneDir.lockDir 0 ∉ stGoneDir.dirs ∧
    release stGoneDir 0 =
      ({ stGoneDir with
          acquired := Function.update stGoneDir.acquired 0 false }, none) :=
  ⟨by decide, by decide, c3_release_missing_dir stGoneDir 0 (by decide) (by decide)⟩


/-! ## C4 -/

theorem mutexInv_acquireStep {st : PState n} (i : Fin n)
    (hfree : st.lockDir i ∉ st.dirs) (h : MutexInv st) :
    MutexInv (acquireStep st i) := by
  obtain ⟨hreg, hdir, hmx⟩ := h
  refine ⟨?_, ?_, ?_⟩ <;>
    simp only [acquireStep, Function.update_apply, Finset.mem_insert]
  · intro j hj
    by_cases hji : j = i
    · exact Or.inl hji
    · rw [if_neg hji] at hj
      exact Or.inr (hreg j hj)
  · intro j hj
    by_cases hji : j = i
    · rw [hji]; exact Or.inl rfl
    · rw [if_neg hji] at hj
      exact Or.inr (hdir j hj)
  · intro j k hj hk hjk
    by_cases hji : j = i <;> by_cases hki : k = i
    · exact hji.trans hki.symm
    · rw [if_neg hki] at hk
      exact absurd (by rw [← hji, hjk]; exact hdir k hk) hfree
    · rw [if_neg hji] at hj
      exact absurd (by rw [← hki, ← hjk]; exact hdir j hj) hfree
    · rw [if_neg hji] at hj
      rw [if_neg hki] at hk
      exact hmx j k hj hk hjk

theorem mutexInv_release {st : PState n} (i : Fin n) (h : MutexInv st) :
    MutexInv (release st i).1 := by
  obtain ⟨hreg, hdir, hmx⟩ := h
  by_cases ha : st.acquired i
  · by_cases hd : st.lockDir i ∈ st.dirs
    · by_cases hs : st.lockDir i ∈ st.stuck
      · rw [release_stuck_eq ha hd hs]
        exact ⟨hreg, hdir, hmx⟩
      · rw [release_success_eq ha hd hs (hreg i ha)]
        refine ⟨?_, ?_, ?_⟩
        · intro j hj
          simp only [Function.update_apply] at hj
          by_cases hji : j = i
          · rw [if_pos hji] at hj; simp at hj
          · rw [if_neg hji] at hj
            exact Finset.mem_erase.mpr ⟨hji, hreg j hj⟩
        · intro j hj
          simp only [Function.update_apply] at hj
          by_cases hji : j = i
          · rw [if_pos hji] at hj; simp at hj
          · rw [if_neg hji] at hj
            refine Finset.mem_erase.mpr ⟨?_, hdir j hj⟩
            intro heq
            exact hji (hmx j i hj ha heq)
        · intro j k hj hk hjk
          simp only [Function.update_apply] at hj hk
          by_cases hji : j = i
          · rw [if_pos hji] at hj; simp at hj
          · by_cases hki : k = i
            · rw [if_pos hki] at hk; simp at hk
            · rw [if_neg hji] at hj
              rw [if_neg hki] at hk
              exact hmx j k hj hk hjk
    · rw [release_notFound_eq ha hd]
      refine ⟨?_, ?_, ?_⟩
      · intro j hj
        simp only [Function.update_apply] at hj
        by_cases hji : j = i
        · rw [if_pos hji] at hj; simp at hj
        · rw [if_neg hji] at hj
          exact hreg j hj
      · intro j hj
        simp only [Function.update_apply] at hj
        by_cases hji : j = i
        · rw [if_pos hji] at hj; simp at hj
        · rw [if_neg hji] at hj
          exact hdir j hj
      · intro j k hj hk hjk
        simp only [Function.update_apply] at hj hk
        by_cases hji : j = i
        · rw [if_pos hji] at hj; simp at hj
        · by_cases hki : k = i
          · rw [if_pos hki] at hk; simp at hk
          · rw [if_neg hji] at hj
            rw [if_neg hki] at hk
            exact hmx j k hj hk hjk
  · rw [release_not_acquired st i (by simpa using ha)]
    exact ⟨hreg, hdir, hmx⟩

theorem mutexInv_step {st st' : PState n} (h : MutexInv st)
    (hs : Step st st') : MutexInv st' := by
  cases hs with
  | acq i hfree => exact mutexInv_acquireStep i hfree h
  | rel i => exact mutexInv_release i h

theorem mutexInv_reach {st0 st : PState n} (h0 : MutexInv st0)
    (hr : Reach st0 st) : MutexInv st := by
  induction hr with
  | refl => exact h0
  | tail _ hs ih => exact mutexInv_step ih hs

/-- C4: mutual exclusion.  From any initial state in which no handle is
acquired and the registry is empty, in every state reachable by any
interleaving of (atomic) acquire and release steps, no two distinct handles
on the same path have `acquired == true` simultaneously. -/
theorem c4_mutual_exclusion (st0 st : PState n)
    (hinit_acq : ∀ i, st0.acquired i = false) (hinit_reg : st0.registry = ∅)
    (hreach : Reach st0 st) :
    ∀ i j, st.lockDir i = st.lockDir j → st.acquired i = true →
      st.acquired j = true → i = j := by
  have h0 : MutexInv st0 := by
    refine ⟨?_, ?_, ?_⟩
    · intro i hi; rw [hinit_acq i] at hi; cases hi
    · intro i hi; rw [hinit_acq i] at hi; cases hi
    · intro i j hi _ _; rw [hinit_acq i] at hi; cases hi
  intro i j hpath hi hj
  exact (mutexInv_reach h0 hreach).2.2 i j hi hj hpath

/-- C4 witness: two same-path handles, one acquire step performed. -/
theorem c4_witness :
    (∀ i : Fin 2, stTwoSame.acquired i = false) ∧
    stTwoSame.registry = ∅ ∧
    (∀ i j : Fin 2,
      (acquireStep stTwoSame 0).lockDir i = (acquireStep stTwoSame 0).lockDir j →
      (acquireStep stTwoSame 0).acquired i = true →
      (acquireStep stTwoSame 0).acquired j = true → i = j) :=
  ⟨by decide, by decide,
   c4_mutual_exclusion stTwoSame (acquireStep stTwoSame 0) (by decide) (by decide)
     (Reach.tail Reach.refl (Step.acq stTwoSame 0 (by decide)))⟩

/-! ## C5 -/

/-- The loop raises `LockTimeoutException` only when the timeout check fired:
`timeout_interval >= 0` and the elapsed time at that iteration strictly
exceeds it. -/
theorem acquireLoop_timeout_cond (tmo : ℚ) (busy : Nat → Bool)
    (elapsed : Nat → ℚ) :
    ∀ fuel k0 k, acquireLoop tmo busy elapsed fuel k0 = .lockTimeout k →
      0 ≤ tmo ∧ tmo < elapsed k := by
  intro fuel
  induction fuel with
  | zero => intro k0 k h; simp [acquireLoop] at h
  | succ m ih =>
    intro k0 k h
    unfold acquireLoop at h
    split at h
    · simp at h
    · split at h
      case isTrue hc =>
        cases h
        exact hc
      case isFalse hc =>
        exact ih _ _ h

/-- C5: when `acquire()` on a handle with `timeout_interval >= 0` fails, it
fails with `LockTimeoutException` precisely because the elapsed time at some
iteration exceeded `timeout_interval`; the handle and registry are exactly as
before the call — `acquired` is still `false` and the handle is not
registered, so a future acquire attempt can be made. -/
theorem c5_timeout_state_unchanged (h : DirLock) (id : Nat) (reg : Finset Nat)
    (busy : Nat → Bool) (elapsed : Nat → ℚ) (fuel k : Nat)
    (htmo : 0 ≤ h.timeout_interval) (hacq : h.acquired = false)
    (hreg : id ∉ reg)
    (hres : (acquireRun h id reg busy elapsed fuel).2 = .lockTimeout k) :
    acquireRun h id reg busy elapsed fuel = ((h, reg), .lockTimeout k) ∧
    (acquireRun h id reg busy elapsed fuel).1.1.acquired = false ∧
    id ∉ (acquireRun h id reg busy elapsed fuel).1.2 ∧
    h.timeout_interval < elapsed k := by
  have hmain : acquireRun h id reg busy elapsed fuel = ((h, reg), .lockTimeout k) ∧
      h.timeout_interval < elapsed k := by
    unfold acquireRun at hres ⊢
    rcases hl : acquireLoop h.timeout_interval busy elapsed fuel 0 with k' | k' | _ <;>
      rw [hl] at hres <;> simp at hres
    subst hres
    exact ⟨rfl, (acquireLoop_timeout_cond _ _ _ fuel 0 k' hl).2⟩
  refine ⟨hmain.1, ?_, ?_, hmain.2⟩
  · rw [hmain.1]; exact hacq
  · rw [hmain.1]; exact hreg

/-- C5 witness: a zero-timeout handle against a permanently held path times
out at iteration 1 with all state intact. -/
theorem c5_witness :
    (0 : ℚ) ≤ (mkDirLock "a" none 0).timeout_interval ∧
    (mkDirLock "a" none 0).acquired = false ∧
    7 ∉ (∅ : Finset Nat) ∧
    (acquireRun (mkDirLock "a" none 0) 7 ∅ busyAll clockTick 3).2 =
      .lockTimeout 1 ∧
    (acquireRun (mkDirLock "a" none 0) 7 ∅ busyAll clockTick 3 =
        ((mkDirLock "a" none 0, ∅), .lockTimeout 1) ∧
      (acquireRun (mkDirLock "a" none 0) 7 ∅ busyAll clockTick 3).1.1.acquired
        = false ∧
      7 ∉ (acquireRun (mkDirLock "a" none 0) 7 ∅ busyAll clockTick 3).1.2 ∧
      (mkDirLock "a" none 0).timeout_interval < clockTick 1) :=
  ⟨by decide, by decide, by decide, by decide,
   c5_timeout_state_unchanged (mkDirLock "a" none 0) 7 ∅ busyAll clockTick 3 1
     (by decide) (by decide) (by decide) (by decide)⟩


/-! ## C6 -/

/-- C6 counterexample: with a captured original handler of `None`, the signal
handler terminates normally after cleanup but performs no restore and no
re-delivery of the signal, refuting "re-delivers the same signal ... in every
case". -/
theorem c6_handler_none_cex :
    CleanOrder stIdle [] ∧
    (handleSignalCleanup Signal.sigint none stIdle []).2.1 = none ∧
    (handleSignalCleanup Signal.sigint none stIdle []).2.2 = [] := by
  refine ⟨⟨by decide, by decide⟩, by decide, by decide⟩

/-- C6 (amended): for each of the two termination signals, the installed
handler first calls `_clean_locks`; then, only if the cleanup completed
normally AND the captured original handler is not `None`, it restores that
handler and re-delivers the same signal, in that order; when the captured
original handler is `None` (or cleanup raised) no restore and no re-delivery
happen. -/
theorem c6_handler_conditional (sig : Signal) (orig : Option PyHandler)
    (st : PState n) (order : List (Fin n)) :
    handleSignalCleanup sig orig st order =
      ((cleanLocks st order).1, (cleanLocks st order).2,
        if (cleanLocks st order).2 = none then
          (match orig with
           | some h0 => [SigAction.restore sig h0, SigAction.redeliver sig]
           | none => [])
        else []) := by
  unfold handleSignalCleanup
  rcases h : cleanLocks st order with ⟨st1, e⟩
  cases e <;> cases orig <;> simp

/-! ## C7 -/

/-- With a negative `timeout_interval` the timeout check is skipped at every
iteration, so the loop never raises `LockTimeoutException`. -/
theorem acquireLoop_neg_no_timeout (tmo : ℚ) (busy : Nat → Bool)
    (elapsed : Nat → ℚ) (htmo : tmo < 0) :
    ∀ fuel k0 k, acquireLoop tmo busy elapsed fuel k0 ≠ .lockTimeout k := by
  intro fuel
  induction fuel with
  | zero => intro k0 k h; simp [acquireLoop] at h
  | succ m ih =>
    intro k0 k h
    unfold acquireLoop at h
    split at h
    · simp at h
    · split at h
      case isTrue hc => exact absurd hc (by simp [not_le.mpr htmo])
      case isFalse hc => exact ih _ _ h

/-- C7: a handle with negative `timeout_interval` (including the constructor
default `-1`) never fails with `LockTimeoutException`: every run of
`acquire()` either succeeds at some iteration (creating the directory,
setting `acquired` and registering the handle) or is still polling. -/
theorem c7_negative_timeout (h : DirLock) (id : Nat) (reg : Finset Nat)
    (busy : Nat → Bool) (elapsed : Nat → ℚ) (fuel : Nat)
    (htmo : h.timeout_interval < 0) :
    (∀ k, (acquireRun h id reg busy elapsed fuel).2 ≠ .lockTimeout k) ∧
    ((∃ k, (acquireRun h id reg busy elapsed fuel).2 = .success k ∧
        (acquireRun h id reg busy elapsed fuel).1 =
          ({ h with acquired := true }, insert id reg)) ∨
      ((acquireRun h id reg busy elapsed fuel).2 = .polling ∧
        (acquireRun h id reg busy elapsed fuel).1 = (h, reg))) := by
  unfold acquireRun
  rcases hl : acquireLoop h.timeout_interval busy elapsed fuel 0 with k' | k' | _
  · exact ⟨by simp, Or.inl ⟨k', by simp⟩⟩
  · exact absurd hl (acquireLoop_neg_no_timeout _ _ _ htmo fuel 0 k')
  · exact ⟨by simp, Or.inr ⟨by simp, by simp⟩⟩

/-- C7 witness: a default-constructed handle (`timeout_interval = -1`) on a
permanently held path never reports a timeout. -/
theorem c7_witness :
    (mkDirLock "a").timeout_interval < 0 ∧
    (∀ k, (acquireRun (mkDirLock "a") 7 ∅ busyAll clockTick 3).2 ≠
      .lockTimeout k) :=
  ⟨by decide,
   (c7_negative_timeout (mkDirLock "a") 7 ∅ busyAll clockTick 3 (by decide)).1⟩

/-! ## C8 -/

/-- C8: scoped acquisition.  If entry succeeds (the directory was free), then
for any protected body — raising or not — that leaves the lock itself intact,
`__exit__` calls `release()`: the scope ends with the handle released
(`acquired == false`, deregistered, directory removed) and the body's
exception, if any, propagated unchanged rather than suppressed. -/
theorem c8_with_lock_releases (tmo : ℚ) (st : PState n) (i : Fin n)
    (body : PState n → PState n × Option PyErr) (st2 : PState n)
    (eBody : Option PyErr)
    (hfree : st.lockDir i ∉ st.dirs)
    (hbody : body (acquireStep st i) = (st2, eBody))
    (hacq : st2.acquired i = true)
    (hdir : st2.lockDir i ∈ st2.dirs)
    (hstuck : st2.lockDir i ∉ st2.stuck)
    (hreg : i ∈ st2.registry) :
    withLock tmo st i body = .completed (release st2 i).1 eBody ∧
    (release st2 i).1.acquired i = false ∧
    i ∉ (release st2 i).1.registry ∧
    (release st2 i).1.lockDir i ∉ (release st2 i).1.dirs := by
  have hrel := release_success_eq hacq hdir hstuck hreg
  refine ⟨?_, ?_, ?_, ?_⟩
  · unfold withLock
    rw [if_neg hfree, hbody]
    dsimp only
    rw [hrel]
  · rw [hrel]; simp [Function.update]
  · rw [hrel]; exact Finset.not_mem_erase i st2.registry
  · rw [hrel]; exact Finset.not_mem_erase (st2.lockDir i) st2.dirs

/-- C8 witness: a body that raises; the exception propagates and the lock is
still released on exit. -/
theorem c8_witness :
    stIdle.lockDir 0 ∉ stIdle.dirs ∧
    (withLock (-1) stIdle 0 bodyRaise =
        .completed (release (acquireStep stIdle 0) 0).1 (some PyErr.osError) ∧
      (release (acquireStep stIdle 0) 0).1.acquired 0 = false ∧
      (0 : Fin 1) ∉ (release (acquireStep stIdle 0) 0).1.registry ∧
      (release (acquireStep stIdle 0) 0).1.lockDir 0 ∉
        (release (acquireStep stIdle 0) 0).1.dirs) :=
  ⟨by decide,
   c8_with_lock_releases (-1) stIdle 0 bodyRaise (acquireStep stIdle 0)
     (some PyErr.osError) (by decide) rfl (by decide) (by decide) (by decide)
     (by decide)⟩

/-! ## C9 -/

/-- C9: calling `release()` on a handle with `acquired == false` is a no-op —
no error, and the handle, registry and filesystem are unchanged; consequently
after any release that completed without error, a second release changes
nothing. -/
theorem c9_release_idempotent (st st1 : PState n) (i : Fin n) :
    (st.acquired i = false → release st i = (st, none)) ∧
    (release st i = (st1, none) → release st1 i = (st1, none)) :=
  ⟨fun h => release_not_acquired st i h,
   fun h => release_not_acquired st1 i (release_none_acquired_false h)⟩

/-- C9 witness: release on a never-acquired handle is the identity. -/
theorem c9_witness :
    stIdle.acquired 0 = false ∧ release stIdle 0 = (stIdle, none) :=
  ⟨by decide, (c9_release_idempotent stIdle stIdle 0).1 (by decide)⟩

/-! ## C10 -/

/-- C10: when `os.rmdir` fails with an error other than `FileNotFoundError`
(`stuck` path), `release()` propagates the error and leaves all state
unchanged: `acquired` stays `true`, the handle stays registered, and the
directory remains. -/
theorem c10_release_error_propagates (st : PState n) (i : Fin n)
    (ha : st.acquired i = true) (hd : st.lockDir i ∈ st.dirs)
    (hs : st.lockDir i ∈ st.stuck) :
    release st i = (st, some PyErr.osError) :=
  release_stuck_eq ha hd hs

/-- C10 witness: concrete stuck-directory state. -/
theorem c10_witness :
    stStuck.acquired 0 = true ∧ stStuck.lockDir 0 ∈ stStuck.dirs ∧
    stStuck.lockDir 0 ∈ stStuck.stuck ∧
    release stStuck 0 = (stStuck, some PyErr.osError) :=
  ⟨by decide, by decide, by decide,
   c10_release_error_propagates stStuck 0 (by decide) (by decide) (by decide)⟩

end Dirlock
